import Mathlib

/-!
Verification of the log-ingestion core (`get_data`) of the MirrorPlots
repository.

The repository has two near-identical modules:
* `plot_functions.py` (top level) — `get_data` reads ten channels, the
  required value tokens of a data row sitting at whitespace-token indices
  1,3,5,7,9,11,13,15,17,19;
* `MirrorPlots/plot_functions.py` — `get_data` reads twelve channels, the
  value tokens sitting at indices 1,3,…,23.

Both functions
1. read lines 3 and 4, take whitespace token index 6 of each, split it on
   `:` and combine the first three fields as `h*3600 + m*60 + s`; the
   measurement duration is `end - start` (any failure here propagates to
   the caller — modelled as `none`);
2. re-read the file, skipping the first line unconditionally, and for every
   further line whose 1-based number `cnt` satisfies `cnt >= start_line`
   attempt `float()` coercions of the required tokens, appending each
   coerced value to its channel list one by one inside a single
   `try/except: pass` block (so a failure mid-row keeps the appends already
   made for that row);
3. build `tvals = linspace(0, delta_t, len(act_pos))`;
4. if `gantry_cutoff` is set, truncate the gantry (and, in the twelve
   channel variant, the slave) lists to the first `len(act_pos) // 5`
   entries;
5. build `tvals_gantry = linspace(0, delta_t, len(x_gantry))` after the
   truncation.

Numeric values are modelled as rationals (`ℚ`); Python `float()` is
modelled on the plain decimal forms (optional sign, digits, optional
fractional part) that appear in these instrument logs.  A file is its list
of raw line strings; Python's `str.split()` (no argument: split on
whitespace runs, dropping empty fields) and `str.split(':')` (keep empty
fields) are modelled directly on the character list.  The `numpy.asarray`
conversions and the `debug` printing have no effect on the returned
values and are not modelled.
-/

/-- Tokenizer helper: models Python `str.split()` with no argument (split on
runs of whitespace, no empty tokens); `cur` is the reversed current token. -/
def splitWsAux : List Char → List Char → List String
  | [], cur => if cur.isEmpty then [] else [String.mk cur.reverse]
  | c :: cs, cur =>
    if c.isWhitespace then
      if cur.isEmpty then splitWsAux cs []
      else String.mk cur.reverse :: splitWsAux cs []
    else splitWsAux cs (c :: cur)

/-- Model of Python `line.split()`. -/
def splitWs (s : String) : List String := splitWsAux s.data []

/-- Tokenizer helper: models Python `str.split(':')` (empty fields kept). -/
def splitColonAux : List Char → List Char → List String
  | [], cur => [String.mk cur.reverse]
  | c :: cs, cur =>
    if c = ':' then String.mk cur.reverse :: splitColonAux cs []
    else splitColonAux cs (c :: cur)

/-- Model of Python `s.split(':')`. -/
def splitColon (s : String) : List String := splitColonAux s.data []

/-- Value of a run of decimal digit characters. -/
def digitsVal (l : List Char) : ℕ := l.foldl (fun a c => 10 * a + (c.toNat - 48)) 0

/-- Unsigned part of the model of Python `float()`: digits with an optional
single `.` and fractional digits (`"12"`, `"12.5"`, `"12."`, `".5"`). -/
def parseUFloat? (cs : List Char) : Option ℚ :=
  let ip := cs.takeWhile Char.isDigit
  let rest := cs.dropWhile Char.isDigit
  match rest with
  | [] => if ip.isEmpty then none else some (digitsVal ip)
  | '.' :: frac =>
    if frac.all Char.isDigit && !(ip.isEmpty && frac.isEmpty) then
      some ((digitsVal ip : ℚ) + (digitsVal frac : ℚ) / (10 : ℚ) ^ frac.length)
    else none
  | _ => none

/-- Model of Python `float(s)` on the plain decimal forms used by the logs:
optional sign, then an unsigned decimal literal.  `none` models a raised
`ValueError`. -/
def parseFloat? (s : String) : Option ℚ :=
  match s.data with
  | '-' :: rest => (parseUFloat? rest).map (fun q => -q)
  | '+' :: rest => parseUFloat? rest
  | cs => parseUFloat? cs

/-- Timestamp token to seconds: `t.split(':')`, then
`float(parts[0])*3600 + float(parts[1])*60 + float(parts[2])` as in
`get_data` lines 56–66.  Fields beyond the third are ignored, exactly as
unread list entries are in the source.  `none` models a raised
`IndexError`/`ValueError`. -/
def parseHMS? (t : String) : Option ℚ :=
  let parts := splitColon t
  match parts.get? 0, parts.get? 1, parts.get? 2 with
  | some hs, some ms, some ss =>
    match parseFloat? hs, parseFloat? ms, parseFloat? ss with
    | some h, some m, some s => some (h * 3600 + m * 60 + s)
    | _, _, _ => none
  | _, _, _ => none

/-- Raw line `j` (0-based) of the file; a missing line reads as `""`, the
value Python's `readline` returns at end of file. -/
def lineAt (lines : List String) (j : ℕ) : String := lines.getD j ""

/-- Whitespace tokens of line `j` (0-based). -/
def tokensAt (lines : List String) (j : ℕ) : List String := splitWs (lineAt lines j)

/-- Header pass of `get_data` (source lines 45–68): token index 6 of lines 3
and 4 (1-based), each converted by `parseHMS?`; result is `end - start`.
`none` models the unguarded exception propagating to the caller. -/
def headerDuration? (lines : List String) : Option ℚ :=
  match (tokensAt lines 2).get? 6, (tokensAt lines 3).get? 6 with
  | some t3, some t4 =>
    match parseHMS? t3, parseHMS? t4 with
    | some a, some b => some (b - a)
    | _, _ => none
  | _, _ => none

/-- Walk down the required token indices of one row, in source order,
collecting the values that Python would have appended before the first
failing coercion; the Bool records whether every coercion succeeded. -/
def coerceRow (tokens : List String) : List ℕ → List ℚ × Bool
  | [] => ([], true)
  | i :: is =>
    match tokens.get? i with
    | none => ([], false)
    | some t =>
      match parseFloat? t with
      | none => ([], false)
      | some v =>
        let r := coerceRow tokens is
        (v :: r.1, r.2)

/-- Values a row contributes, channel by channel in source order: the
appends Python performs before the `try` block is aborted. -/
def rowVals (idxs : List ℕ) (tokens : List String) : List ℚ := (coerceRow tokens idxs).1

/-- Whether every required token of the row coerces. -/
def rowOk (idxs : List ℕ) (tokens : List String) : Bool := (coerceRow tokens idxs).2

/-- Append the values of one row to the channel lists positionally: channel
`j` receives a value exactly when the row produced at least `j+1` values. -/
def appendVals : List (List ℚ) → List ℚ → List (List ℚ)
  | cs, [] => cs
  | [], _ :: _ => []
  | c :: cs, v :: vs => (c ++ [v]) :: appendVals cs vs

/-- Processing of one raw body line (source lines 89–102). -/
def bodyStep (idxs : List ℕ) (cs : List (List ℚ)) (rawLine : String) : List (List ℚ) :=
  appendVals cs (rowVals idxs (splitWs rawLine))

/-- Body loop of `get_data` (source lines 82–102): `cnt` is the 1-based
number of the line under consideration; a line is parsed when
`start_line <= cnt`.  The loop enters with line 2, line 1 having been
consumed by the `readline` before the loop. -/
def parseBodyAux (idxs : List ℕ) (start_line : ℕ) :
    List String → ℕ → List (List ℚ) → List (List ℚ)
  | [], _, cs => cs
  | l :: ls, cnt, cs =>
    parseBodyAux idxs start_line ls (cnt + 1)
      (if start_line ≤ cnt then bodyStep idxs cs l else cs)

/-- Body pass of `get_data`: channel lists (in source order) after the whole
file has been scanned.  The final `readline` at end of file returns `""`,
which never contributes a value, and is therefore not modelled. -/
def parseBody (idxs : List ℕ) (start_line : ℕ) (lines : List String) : List (List ℚ) :=
  parseBodyAux idxs start_line (lines.drop 1) 2 (List.replicate idxs.length [])

/-- Model of `numpy.linspace(0, d, n)`: `n` evenly spaced rationals from 0
to `d` inclusive; `[]` for `n = 0`, `[0]` for `n = 1`. -/
def linspace (d : ℚ) (n : ℕ) : List ℚ :=
  if n = 0 then []
  else if n = 1 then [0]
  else (List.range n).map (fun (i : ℕ) => d * (i : ℚ) / ((n : ℚ) - 1))

/-- Required token indices of the ten-channel variant
(`plot_functions.py`, source lines 91–100). -/
def idxs1 : List ℕ := [1, 3, 5, 7, 9, 11, 13, 15, 17, 19]

/-- Required token indices of the twelve-channel variant
(`MirrorPlots/plot_functions.py`, source lines 98–109). -/
def idxs2 : List ℕ := [1, 3, 5, 7, 9, 11, 13, 15, 17, 19, 21, 23]

/-- Arrays returned by the ten-channel `get_data`: the rows of `nc_data`
and `gantry_data`. -/
structure Result1 where
  tvals : List ℚ
  act_pos : List ℚ
  set_pos : List ℚ
  act_velo : List ℚ
  set_velo : List ℚ
  pos_diff : List ℚ
  x_gantry : List ℚ
  y_gantry : List ℚ
  act_pos_slave : List ℚ
  act_velo_slave : List ℚ
  pos_diff_slave : List ℚ
  tvals_gantry : List ℚ
deriving DecidableEq, Repr

/-- `get_data` of `plot_functions.py`.  `none` models the header exceptions
propagating; the body never raises.  `tvals` is built from `len(act_pos)`
before the cutoff; the cutoff truncates only `x_gantry` and `y_gantry`;
`tvals_gantry` is built after the cutoff. -/
def get_data1 (lines : List String) (start_line : ℕ) (gantry_cutoff : Bool) :
    Option Result1 :=
  (headerDuration? lines).map fun delta_t =>
    let cs := parseBody idxs1 start_line lines
    let act_pos := cs.getD 0 []
    let tvals := linspace delta_t act_pos.length
    let gantry_stop_idx := act_pos.length / 5
    let x_gantry := if gantry_cutoff then (cs.getD 5 []).take gantry_stop_idx else cs.getD 5 []
    let y_gantry := if gantry_cutoff then (cs.getD 6 []).take gantry_stop_idx else cs.getD 6 []
    let tvals_gantry := linspace delta_t x_gantry.length
    { tvals := tvals
      act_pos := act_pos
      set_pos := cs.getD 1 []
      act_velo := cs.getD 2 []
      set_velo := cs.getD 3 []
      pos_diff := cs.getD 4 []
      x_gantry := x_gantry
      y_gantry := y_gantry
      act_pos_slave := cs.getD 7 []
      act_velo_slave := cs.getD 8 []
      pos_diff_slave := cs.getD 9 []
      tvals_gantry := tvals_gantry }

/-- Arrays returned by the twelve-channel `get_data`. -/
structure Result2 where
  tvals : List ℚ
  act_pos : List ℚ
  set_pos : List ℚ
  act_velo : List ℚ
  set_velo : List ℚ
  pos_diff : List ℚ
  x_gantry : List ℚ
  y_gantry : List ℚ
  act_pos_slave : List ℚ
  set_pos_slave : List ℚ
  act_velo_slave : List ℚ
  set_velo_slave : List ℚ
  pos_diff_slave : List ℚ
  tvals_gantry : List ℚ
deriving DecidableEq, Repr

/-- `get_data` of `MirrorPlots/plot_functions.py`: as `get_data1`, with the
slave channels read at token indices 15,17,19,21,23 and, under
`gantry_cutoff`, truncated together with the gantry channels. -/
def get_data2 (lines : List String) (start_line : ℕ) (gantry_cutoff : Bool) :
    Option Result2 :=
  (headerDuration? lines).map fun delta_t =>
    let cs := parseBody idxs2 start_line lines
    let act_pos := cs.getD 0 []
    let tvals := linspace delta_t act_pos.length
    let gantry_stop_idx := act_pos.length / 5
    let cutoff : List ℚ → List ℚ :=
      fun l => if gantry_cutoff then l.take gantry_stop_idx else l
    let x_gantry := cutoff (cs.getD 5 [])
    let tvals_gantry := linspace delta_t x_gantry.length
    { tvals := tvals
      act_pos := act_pos
      set_pos := cs.getD 1 []
      act_velo := cs.getD 2 []
      set_velo := cs.getD 3 []
      pos_diff := cs.getD 4 []
      x_gantry := x_gantry
      y_gantry := cutoff (cs.getD 6 [])
      act_pos_slave := cutoff (cs.getD 7 [])
      set_pos_slave := cutoff (cs.getD 8 [])
      act_velo_slave := cutoff (cs.getD 9 [])
      set_velo_slave := cutoff (cs.getD 10 [])
      pos_diff_slave := cutoff (cs.getD 11 [])
      tvals_gantry := tvals_gantry }

/-- Every processed line from `start_line` on coerces on all required
tokens (the "clean body" condition under which rows are atomic). -/
def cleanBody (idxs : List ℕ) (start_line : ℕ) (lines : List String) : Bool :=
  (lines.drop (max (start_line - 1) 1)).all fun l => rowOk idxs (splitWs l)

/-- Projection of a `Result1` onto the channels and axis that the
`gantry_cutoff` flag leaves alone: everything except `x_gantry`,
`y_gantry` and `tvals_gantry`. -/
def fastPart1 (r : Result1) :
    List ℚ × List ℚ × List ℚ × List ℚ × List ℚ × List ℚ × List ℚ × List ℚ × List ℚ :=
  (r.tvals, r.act_pos, r.set_pos, r.act_velo, r.set_velo, r.pos_diff,
    r.act_pos_slave, r.act_velo_slave, r.pos_diff_slave)

/-- Projection of a `Result2` onto the channels and axis that the
`gantry_cutoff` flag leaves alone in the twelve-channel variant (there the
slave channels are truncated too). -/
def fastPart2 (r : Result2) :
    List ℚ × List ℚ × List ℚ × List ℚ × List ℚ × List ℚ :=
  (r.tvals, r.act_pos, r.set_pos, r.act_velo, r.set_velo, r.pos_diff)

lemma getD_drop (l : List String) (m k : ℕ) :
    (l.drop m).getD k "" = l.getD (m + k) "" := by
  simp [List.getD_eq_getElem?_getD, List.getElem?_drop]

lemma appendVals_length : ∀ (cs : List (List ℚ)) (vs : List ℚ),
    (appendVals cs vs).length = cs.length := by
  intro cs
  induction cs with
  | nil => intro vs; cases vs <;> rfl
  | cons c cs ih =>
    intro vs
    cases vs with
    | nil => rfl
    | cons v vs => simp [appendVals, ih]

lemma coerceRow_congr : ∀ (idxs : List ℕ) (a b : List String),
    (∀ i ∈ idxs, a.get? i = b.get? i) → coerceRow a idxs = coerceRow b idxs := by
  intro idxs
  induction idxs with
  | nil => intro a b _; rfl
  | cons i is ih =>
    intro a b h
    have hrec := ih a b (fun j hj => h j (List.mem_cons_of_mem i hj))
    unfold coerceRow
    rw [h i (List.mem_cons_self i is)]
    simp only [hrec]

lemma coerceRow_ok_length : ∀ (idxs : List ℕ) (t : List String),
    (coerceRow t idxs).2 = true → (coerceRow t idxs).1.length = idxs.length := by
  intro idxs
  induction idxs with
  | nil => intro t _; rfl
  | cons i is ih =>
    intro t hok
    unfold coerceRow at hok ⊢
    cases ht : t.get? i with
    | none => rw [ht] at hok; exact absurd hok (by simp)
    | some tok =>
      rw [ht] at hok
      dsimp only at hok ⊢
      cases hp : parseFloat? tok with
      | none => rw [hp] at hok; exact absurd hok (by simp)
      | some v =>
        rw [hp] at hok
        dsimp only at hok ⊢
        simpa using ih t hok

lemma appendVals_mem_length : ∀ (cs : List (List ℚ)) (vs : List ℚ) (k : ℕ),
    cs.length ≤ vs.length → (∀ c ∈ cs, c.length = k) →
    ∀ c ∈ appendVals cs vs, c.length = k + 1 := by
  intro cs
  induction cs with
  | nil =>
    intro vs k _ _ c hc
    cases vs with
    | nil => simp [appendVals] at hc
    | cons v vs => simp [appendVals] at hc
  | cons c0 cs ih =>
    intro vs k hlen hall c hc
    cases vs with
    | nil => simp at hlen
    | cons v vs =>
      simp only [appendVals, List.mem_cons] at hc
      rcases hc with rfl | hc
      · simp [hall c0 (List.mem_cons_self _ _)]
      · exact ih vs k (by simpa using hlen)
          (fun c h => hall c (List.mem_cons_of_mem _ h)) c hc

lemma foldl_bodyStep_length (idxs : List ℕ) : ∀ (ls : List String) (cs : List (List ℚ)),
    (ls.foldl (bodyStep idxs) cs).length = cs.length := by
  intro ls
  induction ls with
  | nil => intro cs; rfl
  | cons l ls ih =>
    intro cs
    rw [List.foldl_cons, ih]
    exact appendVals_length cs _

lemma foldl_bodyStep_congr (idxs : List ℕ) : ∀ (la lb : List String) (cs : List (List ℚ)),
    la.length = lb.length →
    (∀ k, rowVals idxs (splitWs (la.getD k "")) = rowVals idxs (splitWs (lb.getD k ""))) →
    la.foldl (bodyStep idxs) cs = lb.foldl (bodyStep idxs) cs := by
  intro la
  induction la with
  | nil =>
    intro lb cs hlen _
    cases lb with
    | nil => rfl
    | cons b lb => simp at hlen
  | cons a la ih =>
    intro lb cs hlen hrow
    cases lb with
    | nil => simp at hlen
    | cons b lb =>
      have h0 := hrow 0
      simp only [List.getD_cons_zero] at h0
      rw [List.foldl_cons, List.foldl_cons]
      have hstep : bodyStep idxs cs a = bodyStep idxs cs b := by
        unfold bodyStep; rw [h0]
      rw [hstep]
      exact ih lb _ (by simpa using hlen)
        (fun k => by simpa [List.getD_cons_succ] using hrow (k + 1))

lemma parseBodyAux_eq_foldl (idxs : List ℕ) (s : ℕ) :
    ∀ (ls : List String) (cnt : ℕ) (cs : List (List ℚ)),
      parseBodyAux idxs s ls cnt cs = (ls.drop (s - cnt)).foldl (bodyStep idxs) cs := by
  intro ls
  induction ls with
  | nil => intro cnt cs; simp [parseBodyAux]
  | cons l ls ih =>
    intro cnt cs
    unfold parseBodyAux
    by_cases h : s ≤ cnt
    · rw [if_pos h, ih]
      have h1 : s - cnt = 0 := by omega
      have h2 : s - (cnt + 1) = 0 := by omega
      rw [h1, h2]
      rfl
    · rw [if_neg h, ih]
      have h1 : s - cnt = (s - (cnt + 1)) + 1 := by omega
      rw [h1, List.drop_succ_cons]

lemma parseBody_eq_foldl (idxs : List ℕ) (s : ℕ) (lines : List String) :
    parseBody idxs s lines =
      (lines.drop (max (s - 1) 1)).foldl (bodyStep idxs) (List.replicate idxs.length []) := by
  unfold parseBody
  rw [parseBodyAux_eq_foldl, List.drop_drop]
  have h : 1 + (s - 2) = max (s - 1) 1 := by omega
  rw [h]

lemma parseBody_length (idxs : List ℕ) (s : ℕ) (lines : List String) :
    (parseBody idxs s lines).length = idxs.length := by
  rw [parseBody_eq_foldl, foldl_bodyStep_length, List.length_replicate]

lemma foldl_bodyStep_clean (idxs : List ℕ) : ∀ (ls : List String) (cs : List (List ℚ)) (k : ℕ),
    cs.length = idxs.length →
    (∀ c ∈ cs, c.length = k) →
    (∀ l ∈ ls, rowOk idxs (splitWs l) = true) →
    ∀ c ∈ ls.foldl (bodyStep idxs) cs, c.length = k + ls.length := by
  intro ls
  induction ls with
  | nil => intro cs k _ hall _ c hc; simpa using hall c hc
  | cons l ls ih =>
    intro cs k hlen hall hok c hc
    rw [List.foldl_cons] at hc
    have hrv : (rowVals idxs (splitWs l)).length = idxs.length :=
      coerceRow_ok_length idxs (splitWs l) (hok l (List.mem_cons_self _ _))
    have hstep : ∀ c ∈ bodyStep idxs cs l, c.length = k + 1 :=
      appendVals_mem_length cs _ k (by rw [hrv, hlen]) hall
    have hlen2 : (bodyStep idxs cs l).length = idxs.length := by
      unfold bodyStep; rw [appendVals_length, hlen]
    have h2 := ih (bodyStep idxs cs l) (k + 1) hlen2 hstep
      (fun l' h => hok l' (List.mem_cons_of_mem _ h)) c hc
    simp only [List.length_cons]
    omega

lemma parseBody_clean (idxs : List ℕ) (s : ℕ) (lines : List String)
    (hcl : cleanBody idxs s lines = true) :
    ∀ c ∈ parseBody idxs s lines, c.length = (lines.drop (max (s - 1) 1)).length := by
  intro c hc
  rw [parseBody_eq_foldl] at hc
  have hok : ∀ l ∈ lines.drop (max (s - 1) 1), rowOk idxs (splitWs l) = true := by
    rw [cleanBody, List.all_eq_true] at hcl
    exact fun l h => hcl l h
  have := foldl_bodyStep_clean idxs (lines.drop (max (s - 1) 1))
    (List.replicate idxs.length []) 0 (List.length_replicate _ _)
    (fun c h => by rw [List.eq_of_mem_replicate h]; rfl) hok c hc
  simpa using this

lemma mem_parseBody_getD (idxs : List ℕ) (s : ℕ) (lines : List String) (i : ℕ)
    (h : i < idxs.length) :
    (parseBody idxs s lines).getD i [] ∈ parseBody idxs s lines := by
  have hl : i < (parseBody idxs s lines).length := by
    rw [parseBody_length]; exact h
  rw [List.getD_eq_getElem _ _ hl]
  exact List.getElem_mem hl

lemma parseBody_clean_getD (idxs : List ℕ) (s : ℕ) (lines : List String)
    (hcl : cleanBody idxs s lines = true) (i : ℕ) (h : i < idxs.length) :
    ((parseBody idxs s lines).getD i []).length = (lines.drop (max (s - 1) 1)).length :=
  parseBody_clean idxs s lines hcl _ (mem_parseBody_getD idxs s lines i h)

lemma linspace_getD (d : ℚ) (n i : ℕ) (h2 : 2 ≤ n) (hi : i < n) :
    (linspace d n).getD i 0 = d * (i : ℚ) / ((n : ℚ) - 1) := by
  unfold linspace
  rw [if_neg (by omega), if_neg (by omega), List.getD_eq_getElem?_getD,
    List.getElem?_map, List.getElem?_range hi]
  rfl

lemma get_data1_some (lines : List String) (s : ℕ) (c : Bool) (r : Result1)
    (h : get_data1 lines s c = some r) :
    ∃ delta_t, headerDuration? lines = some delta_t ∧
      r.act_pos = (parseBody idxs1 s lines).getD 0 [] ∧
      r.x_gantry = (if c then ((parseBody idxs1 s lines).getD 5 []).take
          (((parseBody idxs1 s lines).getD 0 []).length / 5)
        else (parseBody idxs1 s lines).getD 5 []) ∧
      r.y_gantry = (if c then ((parseBody idxs1 s lines).getD 6 []).take
          (((parseBody idxs1 s lines).getD 0 []).length / 5)
        else (parseBody idxs1 s lines).getD 6 []) ∧
      r.tvals = linspace delta_t ((parseBody idxs1 s lines).getD 0 []).length ∧
      r.tvals_gantry = linspace delta_t r.x_gantry.length := by
  unfold get_data1 at h
  rw [Option.map_eq_some'] at h
  obtain ⟨delta_t, hd, hres⟩ := h
  subst hres
  exact ⟨delta_t, hd, rfl, rfl, rfl, rfl, rfl⟩

lemma get_data2_some (lines : List String) (s : ℕ) (c : Bool) (r : Result2)
    (h : get_data2 lines s c = some r) :
    ∃ delta_t, headerDuration? lines = some delta_t ∧
      r.act_pos = (parseBody idxs2 s lines).getD 0 [] ∧
      r.x_gantry = (if c then ((parseBody idxs2 s lines).getD 5 []).take
          (((parseBody idxs2 s lines).getD 0 []).length / 5)
        else (parseBody idxs2 s lines).getD 5 []) ∧
      r.y_gantry = (if c then ((parseBody idxs2 s lines).getD 6 []).take
          (((parseBody idxs2 s lines).getD 0 []).length / 5)
        else (parseBody idxs2 s lines).getD 6 []) ∧
      r.act_pos_slave = (if c then ((parseBody idxs2 s lines).getD 7 []).take
          (((parseBody idxs2 s lines).getD 0 []).length / 5)
        else (parseBody idxs2 s lines).getD 7 []) ∧
      r.set_pos_slave = (if c then ((parseBody idxs2 s lines).getD 8 []).take
          (((parseBody idxs2 s lines).getD 0 []).length / 5)
        else (parseBody idxs2 s lines).getD 8 []) ∧
      r.act_velo_slave = (if c then ((parseBody idxs2 s lines).getD 9 []).take
          (((parseBody idxs2 s lines).getD 0 []).length / 5)
        else (parseBody idxs2 s lines).getD 9 []) ∧
      r.set_velo_slave = (if c then ((parseBody idxs2 s lines).getD 10 []).take
          (((parseBody idxs2 s lines).getD 0 []).length / 5)
        else (parseBody idxs2 s lines).getD 10 []) ∧
      r.pos_diff_slave = (if c then ((parseBody idxs2 s lines).getD 11 []).take
          (((parseBody idxs2 s lines).getD 0 []).length / 5)
        else (parseBody idxs2 s lines).getD 11 []) ∧
      r.tvals_gantry = linspace delta_t r.x_gantry.length := by
  unfold get_data2 at h
  rw [Option.map_eq_some'] at h
  obtain ⟨delta_t, hd, hres⟩ := h
  subst hres
  exact ⟨delta_t, hd, rfl, rfl, rfl, rfl, rfl, rfl, rfl, rfl, rfl⟩

/-- C4: for every file whose lines 3 and 4 (1-based) carry at whitespace
token index 6 a colon-separated timestamp whose first three fields coerce
to floats `h`, `m`, `s`, the extracted duration is
`(end_h*3600 + end_m*60 + end_s) - (start_h*3600 + start_m*60 + start_s)`;
the witness instantiates the particular case start `"10:00:00"` and end
`"10:00:05"`, giving `5`. -/
theorem c4_duration (lines : List String) (t3 t4 sh3 sm3 ss3 sh4 sm4 ss4 : String)
    (r3 r4 : List String) (h3v m3v s3v h4v m4v s4v : ℚ)
    (ht3 : (tokensAt lines 2).get? 6 = some t3)
    (ht4 : (tokensAt lines 3).get? 6 = some t4)
    (hc3 : splitColon t3 = sh3 :: sm3 :: ss3 :: r3)
    (hc4 : splitColon t4 = sh4 :: sm4 :: ss4 :: r4)
    (hp3h : parseFloat? sh3 = some h3v) (hp3m : parseFloat? sm3 = some m3v)
    (hp3s : parseFloat? ss3 = some s3v)
    (hp4h : parseFloat? sh4 = some h4v) (hp4m : parseFloat? sm4 = some m4v)
    (hp4s : parseFloat? ss4 = some s4v) :
    headerDuration? lines =
      some ((h4v * 3600 + m4v * 60 + s4v) - (h3v * 3600 + m3v * 60 + s3v)) := by
  unfold headerDuration? parseHMS?
  rw [ht3, ht4]
  dsimp only
  rw [hc3, hc4]
  dsimp only [List.get?]
  rw [hp3h, hp3m, hp3s, hp4h, hp4m, hp4s]

/-- Witness for C4: a header with start `10:00:00` and end `10:00:05`
yields a duration of 5 seconds. -/
theorem c4_duration_witness :
    headerDuration? ["", "", "a b c d e f 10:00:00", "a b c d e f 10:00:05"] = some 5 := by
  have h := c4_duration ["", "", "a b c d e f 10:00:00", "a b c d e f 10:00:05"]
    "10:00:00" "10:00:05" "10" "00" "00" "10" "00" "05" [] [] 10 0 0 10 0 5
    (by with_unfolding_all decide) (by with_unfolding_all decide)
    (by with_unfolding_all decide) (by with_unfolding_all decide)
    (by with_unfolding_all decide) (by with_unfolding_all decide)
    (by with_unfolding_all decide) (by with_unfolding_all decide)
    (by with_unfolding_all decide) (by with_unfolding_all decide)
  rw [h]
  norm_num

/-- C5: the synthesized time axis `linspace d n` (the model of
`numpy.linspace(0, d, n)` used for both `tvals` and `tvals_gantry`) has
exactly `n` entries, is empty for `n = 0`, is `[0]` for `n = 1`, and for
`n ≥ 2` starts at 0, ends at `d` and advances in equal steps of
`d / (n - 1)`; in particular duration 10 with 5 samples gives
`[0, 2.5, 5, 7.5, 10]`. -/
theorem c5_time_axis (d : ℚ) (n : ℕ) :
    (linspace d n).length = n ∧
    (n = 0 → linspace d n = []) ∧
    (n = 1 → linspace d n = [0]) ∧
    (2 ≤ n →
      (linspace d n).getD 0 0 = 0 ∧
      (linspace d n).getD (n - 1) 0 = d ∧
      ∀ i, i + 1 < n →
        (linspace d n).getD (i + 1) 0 - (linspace d n).getD i 0 = d / ((n : ℚ) - 1)) ∧
    linspace (10 : ℚ) 5 = [0, 5/2, 5, 15/2, 10] := by
  refine ⟨?_, ?_, ?_, ?_, ?_⟩
  · unfold linspace
    split_ifs with h0 h1
    · simp [h0]
    · simp [h1]
    · simp
  · intro h; simp [linspace, h]
  · intro h; simp [linspace, h]
  · intro h2
    have hne : ((n : ℚ) - 1) ≠ 0 := by
      have h2q : (2 : ℚ) ≤ (n : ℚ) := by exact_mod_cast h2
      intro hz
      linarith
    refine ⟨?_, ?_, ?_⟩
    · rw [linspace_getD d n 0 h2 (by omega)]
      simp
    · rw [linspace_getD d n (n - 1) h2 (by omega)]
      rw [Nat.cast_sub (by omega : 1 ≤ n), Nat.cast_one, mul_div_assoc,
        div_self hne, mul_one]
    · intro i hi
      rw [linspace_getD d n (i + 1) h2 (by omega), linspace_getD d n i h2 (by omega)]
      push_cast
      field_simp
      ring
  · with_unfolding_all decide

/-- Witness for C5: on duration 10 with 5 samples the axis starts at 0,
ends at 10, steps by 10/4 = 2.5, and the degenerate counts 0 and 1 give
`[]` and `[0]`. -/
theorem c5_time_axis_witness :
    (linspace (10 : ℚ) 5).getD 0 0 = 0 ∧
    (linspace (10 : ℚ) 5).getD 4 0 = 10 ∧
    (linspace (10 : ℚ) 5).getD 1 0 - (linspace (10 : ℚ) 5).getD 0 0 = 10 / ((5 : ℚ) - 1) ∧
    linspace (3 : ℚ) 0 = [] ∧
    linspace (7 : ℚ) 1 = [0] := by
  obtain ⟨-, -, -, h4, -⟩ := c5_time_axis 10 5
  obtain ⟨ha, hb, hc⟩ := h4 (by norm_num)
  exact ⟨ha, hb, hc 0 (by norm_num), (c5_time_axis 3 0).2.1 rfl,
    (c5_time_axis 7 1).2.2.1 rfl⟩

/-- C10: toggling `gantry_cutoff` changes nothing outside the gantry
channels (and, in the twelve-channel variant, the slave channels) and the
slow time axis: the fast time axis and the position, set-position,
velocity, set-velocity and position-difference arrays agree between the
two flag settings, for every file and `start_line`. -/
theorem c10_cutoff_frame (lines : List String) (s : ℕ) :
    (get_data1 lines s true).map fastPart1 = (get_data1 lines s false).map fastPart1 ∧
    (get_data2 lines s true).map fastPart2 = (get_data2 lines s false).map fastPart2 := by
  constructor <;>
  · cases h : headerDuration? lines with
    | none => simp [get_data1, get_data2, h]
    | some d => simp [get_data1, get_data2, h, fastPart1, fastPart2]


/-- Body lines of the file used by the C3 witness: a well-formed header
(duration 2 s) followed by five rows whose 24 tokens all coerce at every
required index of both variants. -/
def c3File : List String :=
  ["", "", "a b c d e f 00:00:00", "a b c d e f 00:00:02",
    "c 1 c 1 c 1 c 1 c 1 c 1 c 1 c 1 c 1 c 1 c 1 c 1",
    "c 1 c 1 c 1 c 1 c 1 c 1 c 1 c 1 c 1 c 1 c 1 c 1",
    "c 1 c 1 c 1 c 1 c 1 c 1 c 1 c 1 c 1 c 1 c 1 c 1",
    "c 1 c 1 c 1 c 1 c 1 c 1 c 1 c 1 c 1 c 1 c 1 c 1",
    "c 1 c 1 c 1 c 1 c 1 c 1 c 1 c 1 c 1 c 1 c 1 c 1"]

/-- C3 (amended): when every processed data row coerces on all required
tokens, every channel — fast or slow — receives one value per row, so
without the cutoff the slow group has the SAME length as the fast group,
and with the cutoff the slow group has `fast_length / 5` elements; the
fast group is five times the slow group only in the cutoff case with a
length divisible by five.  The claimed unconditional 5:1 length ratio
describes the instrument sampling, not the arrays built by `get_data`. -/
theorem c3_group_lengths (lines : List String) (s : ℕ)
    (h1 : cleanBody idxs1 s lines = true) (h2 : cleanBody idxs2 s lines = true) :
    (∀ r, get_data1 lines s false = some r →
      r.x_gantry.length = r.act_pos.length ∧ r.y_gantry.length = r.act_pos.length) ∧
    (∀ r, get_data1 lines s true = some r →
      r.x_gantry.length = r.act_pos.length / 5 ∧
      r.y_gantry.length = r.act_pos.length / 5 ∧
      (5 ∣ r.act_pos.length → r.act_pos.length = 5 * r.x_gantry.length)) ∧
    (∀ r, get_data2 lines s false = some r →
      r.x_gantry.length = r.act_pos.length ∧ r.y_gantry.length = r.act_pos.length ∧
      r.act_pos_slave.length = r.act_pos.length ∧
      r.pos_diff_slave.length = r.act_pos.length) ∧
    (∀ r, get_data2 lines s true = some r →
      r.x_gantry.length = r.act_pos.length / 5 ∧
      r.y_gantry.length = r.act_pos.length / 5 ∧
      r.act_pos_slave.length = r.act_pos.length / 5 ∧
      r.set_pos_slave.length = r.act_pos.length / 5 ∧
      r.act_velo_slave.length = r.act_pos.length / 5 ∧
      r.set_velo_slave.length = r.act_pos.length / 5 ∧
      r.pos_diff_slave.length = r.act_pos.length / 5) := by
  have g1 : ∀ i, i < 10 → ((parseBody idxs1 s lines).getD i []).length =
      (lines.drop (max (s - 1) 1)).length := fun i hi =>
    parseBody_clean_getD idxs1 s lines h1 i hi
  have g2 : ∀ i, i < 12 → ((parseBody idxs2 s lines).getD i []).length =
      (lines.drop (max (s - 1) 1)).length := fun i hi =>
    parseBody_clean_getD idxs2 s lines h2 i hi
  refine ⟨?_, ?_, ?_, ?_⟩
  · intro r hr
    obtain ⟨d, -, hap, hx, hy, -, -⟩ := get_data1_some lines s false r hr
    rw [if_neg (by simp)] at hx
    rw [if_neg (by simp)] at hy
    rw [hap, hx, hy, g1 0 (by omega), g1 5 (by omega), g1 6 (by omega)]
    exact ⟨rfl, rfl⟩
  · intro r hr
    obtain ⟨d, -, hap, hx, hy, -, -⟩ := get_data1_some lines s true r hr
    rw [if_pos rfl] at hx
    rw [if_pos rfl] at hy
    have hlx : r.x_gantry.length = r.act_pos.length / 5 := by
      rw [hap, hx, List.length_take, g1 0 (by omega), g1 5 (by omega)]
      exact Nat.min_eq_left (Nat.div_le_self _ _)
    have hly : r.y_gantry.length = r.act_pos.length / 5 := by
      rw [hap, hy, List.length_take, g1 0 (by omega), g1 6 (by omega)]
      exact Nat.min_eq_left (Nat.div_le_self _ _)
    refine ⟨hlx, hly, ?_⟩
    intro hdvd
    rw [hlx]
    exact (Nat.mul_div_cancel' hdvd).symm
  · intro r hr
    obtain ⟨d, -, hap, hx, hy, hps, -, -, -, hpd, -⟩ := get_data2_some lines s false r hr
    rw [if_neg (by simp)] at hx
    rw [if_neg (by simp)] at hy
    rw [if_neg (by simp)] at hps
    rw [if_neg (by simp)] at hpd
    rw [hap, hx, hy, hps, hpd, g2 0 (by omega), g2 5 (by omega), g2 6 (by omega),
      g2 7 (by omega), g2 11 (by omega)]
    exact ⟨rfl, rfl, rfl, rfl⟩
  · intro r hr
    obtain ⟨d, -, hap, hx, hy, hps, hss, hvs, hws, hpd, -⟩ :=
      get_data2_some lines s true r hr
    rw [if_pos rfl] at hx hy hps hss hvs hws hpd
    rw [hap, hx, hy, hps, hss, hvs, hws, hpd]
    rw [List.length_take, List.length_take, List.length_take, List.length_take,
      List.length_take, List.length_take, List.length_take,
      g2 0 (by omega), g2 5 (by omega), g2 6 (by omega), g2 7 (by omega),
      g2 8 (by omega), g2 9 (by omega), g2 10 (by omega), g2 11 (by omega)]
    have hmin : min ((lines.drop (max (s - 1) 1)).length / 5)
        (lines.drop (max (s - 1) 1)).length = (lines.drop (max (s - 1) 1)).length / 5 :=
      Nat.min_eq_left (Nat.div_le_self _ _)
    exact ⟨hmin, hmin, hmin, hmin, hmin, hmin, hmin⟩

/-- Counterexample to C3 as frozen: a well-formed file with one fully
valid data row and `gantry_cutoff = False` produces a fast group of
length 1 and a slow group of length 1, not the claimed 5:1 ratio. -/
theorem c3_counterexample :
    ∃ r, get_data1 ["", "", "a b c d e f 00:00:00", "a b c d e f 00:00:02",
        "c 1 c 1 c 1 c 1 c 1 c 1 c 1 c 1 c 1 c 1 c 1 c 1"] 5 false = some r ∧
      r.act_pos.length ≠ 5 * r.x_gantry.length :=
  ⟨⟨[0], [1], [1], [1], [1], [1], [1], [1], [1], [1], [1], [0]⟩,
    by with_unfolding_all decide, by decide⟩

/-- Witness for C3 (amended): on a clean five-row file with the cutoff
enabled, the slow group ends with `5 / 5 = 1` element per channel. -/
theorem c3_group_lengths_witness :
    ∃ r, get_data1 c3File 5 true = some r ∧
      r.x_gantry.length = r.act_pos.length / 5 ∧
      r.y_gantry.length = r.act_pos.length / 5 := by
  have h := c3_group_lengths c3File 5 (by with_unfolding_all decide)
    (by with_unfolding_all decide)
  refine ⟨⟨[0, 1/2, 1, 3/2, 2], [1, 1, 1, 1, 1], [1, 1, 1, 1, 1], [1, 1, 1, 1, 1],
    [1, 1, 1, 1, 1], [1, 1, 1, 1, 1], [1], [1], [1, 1, 1, 1, 1], [1, 1, 1, 1, 1],
    [1, 1, 1, 1, 1], [0]⟩, by with_unfolding_all decide, ?_, ?_⟩
  · exact (h.2.1 _ (by with_unfolding_all decide)).1
  · exact (h.2.1 _ (by with_unfolding_all decide)).2.1

/-- C6 (amended): the body loop parses exactly the lines whose 1-based
number is at least `max start_line 2` — line 1 is consumed by the
`readline` before the counting loop and is never parsed as data, even for
`start_line ≤ 1` — and the parsed lines contribute in file order, lines
before that point contributing nothing. -/
theorem c6_body_lines (idxs : List ℕ) (start_line : ℕ) (lines : List String) :
    parseBody idxs start_line lines =
      (lines.drop (max (start_line - 1) 1)).foldl (bodyStep idxs)
        (List.replicate idxs.length []) :=
  parseBody_eq_foldl idxs start_line lines

/-- Counterexample to C6 as frozen: with `start_line = 1`, line 1 is a
fully valid data row carrying value 7, yet no channel receives 7 — the
claim that every line numbered ≥ start_line is attempted fails at line 1. -/
theorem c6_counterexample :
    ∃ r, get_data1 ["c 7 c 7 c 7 c 7 c 7 c 7 c 7 c 7 c 7 c 7", "x",
        "x x x x x x 00:00:00", "x x x x x x 00:00:01",
        "c 5 c 5 c 5 c 5 c 5 c 5 c 5 c 5 c 5 c 5"] 1 false = some r ∧
      (7 : ℚ) ∉ r.act_pos :=
  ⟨⟨[0], [5], [5], [5], [5], [5], [5], [5], [5], [5], [5], [0]⟩,
    by with_unfolding_all decide, by with_unfolding_all decide⟩

/-- C7 (amended): duration extraction fails, and the failure propagates as
the whole call failing (no per-row recovery), for every file with fewer
than 4 lines, or whose line 3 or 4 lacks a whitespace token at index 6, or
whose token there has fewer than three colon-separated fields or a
non-coercible field among the first three.  A token with numeric first
three fields and EXTRA colon-separated fields (such as `10:00:00:99`) is
accepted, the surplus fields being ignored. -/
theorem c7_header_fatal (lines : List String) (s : ℕ) (c : Bool)
    (h : lines.length < 4 ∨
      (tokensAt lines 2).get? 6 = none ∨
      (tokensAt lines 3).get? 6 = none ∨
      (∃ t, (tokensAt lines 2).get? 6 = some t ∧ parseHMS? t = none) ∨
      (∃ t, (tokensAt lines 3).get? 6 = some t ∧ parseHMS? t = none)) :
    get_data1 lines s c = none := by
  have hnone : headerDuration? lines = none := by
    rcases h with h | h | h | ⟨t, ht, hp⟩ | ⟨t, ht, hp⟩
    · have h4 : tokensAt lines 3 = [] := by
        have : lineAt lines 3 = "" := List.getD_eq_default _ _ (by omega)
        rw [tokensAt, this]
        rfl
      unfold headerDuration?
      rw [h4]
      cases (tokensAt lines 2).get? 6 <;> rfl
    · unfold headerDuration?
      rw [h]
    · unfold headerDuration?
      rw [h]
      cases (tokensAt lines 2).get? 6 <;> rfl
    · unfold headerDuration?
      rw [ht]
      cases h4 : (tokensAt lines 3).get? 6 with
      | none => rfl
      | some t4 =>
        dsimp only
        rw [hp]
    · unfold headerDuration?
      rw [ht]
      cases h3 : (tokensAt lines 2).get? 6 with
      | none => rfl
      | some t3 =>
        dsimp only
        rw [hp]
        cases parseHMS? t3 <;> rfl
  unfold get_data1
  rw [hnone]
  rfl

/-- Witness for C7: a three-line file (header shorter than 4 lines) makes
the whole `get_data` call fail. -/
theorem c7_header_fatal_witness :
    get_data1 ["", "", "a b c d e f 10:00:00"] 22 false = none :=
  c7_header_fatal ["", "", "a b c d e f 10:00:00"] 22 false (Or.inl (by decide))

/-- Counterexample to C7 as frozen: the timestamp tokens `10:00:00:99` and
`10:00:05:99` are not of the numeric `H:M:S` form, yet ingestion succeeds
(the split produces four fields and only the first three are read). -/
theorem c7_counterexample :
    get_data1 ["", "", "a b c d e f 10:00:00:99", "a b c d e f 10:00:05:99"]
      22 false ≠ none := by
  with_unfolding_all decide

/-- C9 (amended): ingestion reads a data row only through the tokens at the
required odd indices (1..19, resp. 1..23), and the header only through
token 6 of lines 3 and 4.  Hence two files of the same line count whose
lines 3 and 4 tokenize identically and whose data rows (the lines numbered
at least `start_line`) agree on all odd token positions below 24 produce
identical outputs in both variants — even-index row tokens are disposable
EXCEPT where the data region overlaps the timestamp lines, which is why
lines 3 and 4 must agree in full. -/
theorem c9_even_tokens (A B : List String) (s : ℕ) (c : Bool)
    (hlen : A.length = B.length)
    (h3 : tokensAt A 2 = tokensAt B 2)
    (h4 : tokensAt A 3 = tokensAt B 3)
    (hodd : ∀ j, j < A.length → s ≤ j + 1 →
      ∀ i, i < 24 → i % 2 = 1 → (tokensAt A j).get? i = (tokensAt B j).get? i) :
    get_data1 A s c = get_data1 B s c ∧ get_data2 A s c = get_data2 B s c := by
  have hhd : headerDuration? A = headerDuration? B := by
    unfold headerDuration?
    rw [h3, h4]
  have hbody : ∀ idxs : List ℕ, (∀ i ∈ idxs, i < 24 ∧ i % 2 = 1) →
      parseBody idxs s A = parseBody idxs s B := by
    intro idxs hidxs
    rw [parseBody_eq_foldl, parseBody_eq_foldl]
    apply foldl_bodyStep_congr
    · simp [hlen]
    · intro k
      rw [getD_drop, getD_drop]
      by_cases hk : max (s - 1) 1 + k < A.length
      · have hs : s ≤ (max (s - 1) 1 + k) + 1 := by omega
        have hj := hodd (max (s - 1) 1 + k) hk hs
        unfold rowVals
        rw [coerceRow_congr idxs (splitWs (A.getD (max (s - 1) 1 + k) ""))
          (splitWs (B.getD (max (s - 1) 1 + k) ""))
          (fun i hi => hj i (hidxs i hi).1 (hidxs i hi).2)]
      · rw [List.getD_eq_default _ _ (by omega),
          List.getD_eq_default _ _ (by omega : B.length ≤ max (s - 1) 1 + k)]
  constructor
  · unfold get_data1
    rw [hhd]
    simp only [hbody idxs1 (by decide)]
  · unfold get_data2
    rw [hhd]
    simp only [hbody idxs2 (by decide)]

/-- Witness for C9 (amended): two five-line files identical except for the
first (even-index) token of their single data row produce identical
outputs in both variants. -/
theorem c9_even_tokens_witness :
    get_data1 ["", "", "h h h h h h 00:00:00", "h h h h h h 00:00:01",
        "a 1 b 1 c 1 d 1 e 1 f 1 g 1 h 1 i 1 j 1 k 1 l 1"] 5 false =
      get_data1 ["", "", "h h h h h h 00:00:00", "h h h h h h 00:00:01",
        "z 1 b 1 c 1 d 1 e 1 f 1 g 1 h 1 i 1 j 1 k 1 l 1"] 5 false ∧
    get_data2 ["", "", "h h h h h h 00:00:00", "h h h h h h 00:00:01",
        "a 1 b 1 c 1 d 1 e 1 f 1 g 1 h 1 i 1 j 1 k 1 l 1"] 5 false =
      get_data2 ["", "", "h h h h h h 00:00:00", "h h h h h h 00:00:01",
        "z 1 b 1 c 1 d 1 e 1 f 1 g 1 h 1 i 1 j 1 k 1 l 1"] 5 false :=
  c9_even_tokens _ _ 5 false (by decide) (by with_unfolding_all decide)
    (by with_unfolding_all decide) (by with_unfolding_all decide)

/-- Counterexample to C9 as frozen: with `start_line = 3`, line 3 is a data
row, and replacing its even-index token 6 (the start timestamp) by another
whitespace-free token changes the returned time axes. -/
theorem c9_counterexample :
    get_data1 ["", "junk", "x x x x x x 00:00:00", "x x x x x x 00:00:01",
        "c 1 c 1 c 1 c 1 c 1 c 1 c 1 c 1 c 1 c 1",
        "c 1 c 1 c 1 c 1 c 1 c 1 c 1 c 1 c 1 c 1"] 3 false ≠
      get_data1 ["", "junk", "x x x x x x 00:00:02", "x x x x x x 00:00:01",
        "c 1 c 1 c 1 c 1 c 1 c 1 c 1 c 1 c 1 c 1",
        "c 1 c 1 c 1 c 1 c 1 c 1 c 1 c 1 c 1 c 1"] 3 false := by
  with_unfolding_all decide

/-- C1 is violated by the code: on a row whose tokens at indices 1 and 3
coerce but whose token at index 5 does not, both variants append the first
two values before the failing coercion aborts the `try` block, so
`act_pos` and `set_pos` receive a value from the row while every later
channel receives none — row acceptance is not atomic and the channel
arrays end with different lengths (1, 1 and 0 here). -/
theorem c1_partial_append_eval :
    get_data1 ["", "", "a b c d e f 00:00:00", "a b c d e f 00:00:01",
        "c0 1.0 c2 2.0 c4 bad c6 7 c8 7 c10 7 c12 7 c14 7 c16 7 c18 7"] 5 false =
      some ⟨[0], [1], [2], [], [], [], [], [], [], [], [], []⟩ ∧
    get_data2 ["", "", "a b c d e f 00:00:00", "a b c d e f 00:00:01",
        "c0 1.0 c2 2.0 c4 bad c6 7 c8 7 c10 7 c12 7 c14 7 c16 7 c18 7"] 5 false =
      some ⟨[0], [1], [2], [], [], [], [], [], [], [], [], [], [], []⟩ := by
  constructor <;> with_unfolding_all decide

/-- C2 is violated by the code through the same partial-append slip: five
rows contributing only to `act_pos` give a fast length of 5, so the claim
promises slow-group channels of exactly `5 / 5 = 1` element, but the slow
arrays are empty before the cutoff and taking 1 element of an empty list
leaves 0 elements; the slow time axis is then empty as well. -/
theorem c2_cutoff_partial_eval :
    get_data1 ["", "", "a b c d e f 00:00:00", "a b c d e f 00:00:01",
        "g0 1.5", "g0 1.5", "g0 1.5", "g0 1.5", "g0 1.5"] 5 true =
      some ⟨[0, 1/4, 1/2, 3/4, 1], [3/2, 3/2, 3/2, 3/2, 3/2],
        [], [], [], [], [], [], [], [], [], []⟩ ∧
    get_data2 ["", "", "a b c d e f 00:00:00", "a b c d e f 00:00:01",
        "g0 1.5", "g0 1.5", "g0 1.5", "g0 1.5", "g0 1.5"] 5 true =
      some ⟨[0, 1/4, 1/2, 3/4, 1], [3/2, 3/2, 3/2, 3/2, 3/2],
        [], [], [], [], [], [], [], [], [], [], [], []⟩ := by
  constructor <;> with_unfolding_all decide

/-- C8: with a well-formed header and no line at or after `start_line`,
ingestion indeed completes with every channel and both time axes empty
(first conjunct).  But the code violates the claim on a file whose only
data row has zero fully valid rows yet a coercible first token: the
partial append leaves `act_pos = [1]` and a one-point time axis, not the
promised empty arrays (second conjunct). -/
theorem c8_zero_rows_eval :
    get_data1 ["", "", "h h h h h h 00:00:00", "h h h h h h 00:00:03"] 22 false =
      some ⟨[], [], [], [], [], [], [], [], [], [], [], []⟩ ∧
    get_data1 ["", "", "h h h h h h 00:00:00", "h h h h h h 00:00:03",
        "r0 1.0 r2 x"] 5 false =
      some ⟨[0], [1], [], [], [], [], [], [], [], [], [], []⟩ := by
  constructor <;> with_unfolding_all decide
